import Mathlib

/-!
Verification of the readiness-polling protocol and driver glue of the
vps-config repository (scripts/test_local.py, scripts/utilities/health_check.py,
scripts/validate.py).

Modeling conventions:
 - Python strings are modeled as `List Char` (`Str`), so that strip,
   startsWith and substring containment are kernel-evaluable.
 - A call to `run_command` (scripts/test_local.py lines 25-57) with
   `check=False` either returns a completed-process record or, when the
   command times out (subprocess.TimeoutExpired), returns None.  This is
   modeled as `Option CmdResult`: `none` is a probe invocation that failed
   to execute, `some r` carries the exit code and captured stdout/stderr.
 - Each iteration of a polling loop consumes one observation record holding
   the results the external commands would return on that iteration.  A whole
   polling run is a function of the list of observations.
 - Wall-clock time advances by the `time.sleep` amounts executed by the loop;
   the execution time of the probe commands themselves is abstracted to zero.
-/

/-- Python strings, modeled as lists of characters. -/
abbrev Str := List Char

/-- Model of Python str.strip(): drop whitespace from both ends. -/
def pyStrip (s : Str) : Str :=
  ((s.dropWhile Char.isWhitespace).reverse.dropWhile Char.isWhitespace).reverse

/-- Model of Python str.startswith. -/
def pyStartsWith (s pre : Str) : Bool := pre.isPrefixOf s

/-- Model of the Python substring test (pat in s). -/
def pyContains (s pat : Str) : Bool :=
  (List.range (s.length + 1)).any (fun i => pat.isPrefixOf (s.drop i))

/-- Result of a completed external command: exit code and captured output
(fields returncode, stdout, stderr of subprocess.CompletedProcess). -/
structure CmdResult where
  returncode : Int
  stdout : Str
  stderr : Str
deriving DecidableEq

/-- Observations available to one iteration of the container wait loop
(scripts/test_local.py lines 65-121): the result of
docker ps --filter name=... (ps), of docker ps -a --filter name=... (psAll,
consulted only when ps fails or reports nothing), and of
docker exec ... systemctl is-system-running --wait (systemd, consulted only
for the test-vps container once the status line starts with Up).
`none` models `run_command` returning None (probe timed out). -/
structure ContainerObs where
  ps : Option CmdResult
  psAll : Option CmdResult
  systemd : Option CmdResult
deriving DecidableEq

/-- Outcome of one iteration of a polling loop body:
return True, return False after fetching the last `tail` log lines
(docker logs --tail tail), or sleep `s` seconds and continue. -/
inductive PollStep where
  | success : PollStep
  | failure : Nat → PollStep
  | continueAfter : Nat → PollStep
deriving DecidableEq

/-- The branch of the container wait taken when the running-container query
reported nothing or failed (scripts/test_local.py lines 69-81): consult
docker ps -a; a nonempty status line means the container exists but is
stopped, so fetch the last 20 log lines and return False; otherwise log
"not found", sleep 3 and continue. -/
def stoppedCheckStep (o : ContainerObs) : PollStep :=
  match o.psAll with
  | some r => if pyStrip r.stdout = [] then .continueAfter 3 else .failure 20
  | none => .continueAfter 3

/-- One iteration of the wait_for_container_healthy loop body
(scripts/test_local.py lines 65-121), as a function of the observations of
that iteration.  Mirrors the source:
if the running query is None or has empty stripped stdout, run the
stopped check; otherwise take the stripped status line; if it does not start
with Up then return False (after docker logs --tail 30) when it contains
Exited, else sleep 2 and continue; if it starts with Up then for the
test-vps container accept systemctl is-system-running exit codes 0 or 1 as
ready (return True) and otherwise sleep 3 and continue, and for any other
container return True at once. -/
def containerPollStep (container_name : Str) (o : ContainerObs) : PollStep :=
  match o.ps with
  | none => stoppedCheckStep o
  | some r =>
    if pyStrip r.stdout = [] then stoppedCheckStep o
    else
      if pyStartsWith (pyStrip r.stdout) "Up".data = true then
        if container_name = "test-vps".data then
          match o.systemd with
          | some sr =>
            if sr.returncode = 0 ∨ sr.returncode = 1 then .success
            else .continueAfter 3
          | none => .continueAfter 3
        else .success
      else
        if pyContains (pyStrip r.stdout) "Exited".data = true then .failure 30
        else .continueAfter 2

/-- Instrumented outcome of a whole polling run.  The three Nat fields are
elapsed seconds at return, number of loop iterations executed, and number of
diagnostic log fetches (docker logs --tail N) performed.  `outOfObs` marks a
run whose observation list was too short to decide. -/
inductive RunOutcome where
  | success : Nat → Nat → Nat → RunOutcome
  | exitedFail : Nat → Nat → Nat → RunOutcome
  | timeoutFail : Nat → Nat → Nat → RunOutcome
  | outOfObs : RunOutcome
deriving DecidableEq

/-- The Boolean value the Python function actually returns to its caller:
True on the ready branch, False on both the exited branch and the
deadline-expiry branch.  `none` only for an undecided (out of observations)
run, which has no Python counterpart. -/
def RunOutcome.returnedBool : RunOutcome → Option Bool
  | .success _ _ _ => some true
  | .exitedFail _ _ _ => some false
  | .timeoutFail _ _ _ => some false
  | .outOfObs => none

/-- The while loop of wait_for_container_healthy (scripts/test_local.py
lines 63-124): loop while elapsed < timeout, consume one observation per
iteration, stop on a terminal step, accumulate sleeps into elapsed. -/
def waitContainerGo (container_name : Str) (timeout : Nat)
    (obss : List ContainerObs) (elapsed polls fetches : Nat) : RunOutcome :=
  if timeout ≤ elapsed then .timeoutFail elapsed polls fetches
  else
    match obss with
    | [] => .outOfObs
    | o :: rest =>
      match containerPollStep container_name o with
      | .success => .success elapsed (polls + 1) fetches
      | .failure _ => .exitedFail elapsed (polls + 1) (fetches + 1)
      | .continueAfter s =>
          waitContainerGo container_name timeout rest (elapsed + s) (polls + 1) fetches

/-- Model of wait_for_container_healthy (scripts/test_local.py lines 59-124)
on a given list of per-iteration observations. -/
def wait_for_container_healthy (container_name : Str) (timeout : Nat)
    (obss : List ContainerObs) : RunOutcome :=
  waitContainerGo container_name timeout obss 0 0 0

/-- Sleep executed by a non-terminal iteration, 0 for a terminal one. -/
def pollSleep (container_name : Str) (o : ContainerObs) : Nat :=
  match containerPollStep container_name o with
  | .continueAfter s => s
  | _ => 0

/-- Observations available to one iteration of the SSH wait loop
(scripts/test_local.py lines 132-179): the results of
docker exec ... systemctl is-active ssh (isActive), of
docker exec ... netstat -tlnp piped through grep :22 (portCheck, consulted
only when the active check passed), and of
docker exec ... systemctl start ssh (startSsh) and
docker exec ... systemctl status ssh --no-pager (statusSsh), both consulted
only on the not-active branch. -/
structure SshObs where
  isActive : Option CmdResult
  portCheck : Option CmdResult
  startSsh : Option CmdResult
  statusSsh : Option CmdResult
deriving DecidableEq

/-- One iteration of the wait_for_ssh_service loop body
(scripts/test_local.py lines 132-179).  Mirrors the source: success needs,
on the same iteration, the is-active query to return exit code 0 with the
word active in its stdout, and then the port query to return exit code 0;
every other combination (including failed probe invocations) attempts a
service start for diagnosis and then sleeps 3 and continues.  The loop body
never returns False: failure is only by deadline expiry. -/
def sshPollStep (o : SshObs) : PollStep :=
  match o.isActive with
  | some r =>
    if r.returncode = 0 ∧ pyContains r.stdout "active".data = true then
      match o.portCheck with
      | some pc => if pc.returncode = 0 then .success else .continueAfter 3
      | none => .continueAfter 3
    else .continueAfter 3
  | none => .continueAfter 3

/-- Commands run by the two polling loops, one constructor per distinct
command the loop bodies can issue. -/
inductive DockerCmd where
  | psFilter : DockerCmd
  | psAll : DockerCmd
  | logsTail : Nat → DockerCmd
  | execIsSystemRunning : DockerCmd
  | execIsActiveSsh : DockerCmd
  | execNetstat22 : DockerCmd
  | execStartSsh : DockerCmd
  | execStatusSsh : DockerCmd
deriving DecidableEq

/-- Semantic classification of each loop command: true when the command only
queries status (docker ps, docker ps -a, docker logs, systemctl is-system-running,
systemctl is-active, netstat, systemctl status), false for
systemctl start ssh, which changes the state of the service it names. -/
def readOnlyCmd : DockerCmd → Bool
  | .execStartSsh => false
  | _ => true

/-- Commands issued by the stopped-check branch of the container wait
(scripts/test_local.py lines 69-77). -/
def stoppedCheckCmds (o : ContainerObs) : List DockerCmd :=
  .psAll ::
    (match o.psAll with
     | some r => if pyStrip r.stdout = [] then [] else [.logsTail 20]
     | none => [])

/-- Commands issued by one iteration of the container wait loop body
(scripts/test_local.py lines 65-121). -/
def containerPollCmds (container_name : Str) (o : ContainerObs) : List DockerCmd :=
  .psFilter ::
    (match o.ps with
     | none => stoppedCheckCmds o
     | some r =>
       if pyStrip r.stdout = [] then stoppedCheckCmds o
       else
         if pyStartsWith (pyStrip r.stdout) "Up".data = true then
           if container_name = "test-vps".data then [.execIsSystemRunning] else []
         else
           if pyContains (pyStrip r.stdout) "Exited".data = true then [.logsTail 30]
           else [])

/-- Commands issued by the not-active branch of the SSH wait loop
(scripts/test_local.py lines 158-174): always systemctl start ssh, followed
by systemctl status ssh when the start command returned a result. -/
def sshStartBranchCmds (o : SshObs) : List DockerCmd :=
  .execStartSsh :: (match o.startSsh with | some _ => [.execStatusSsh] | none => [])

/-- Commands issued by one iteration of the SSH wait loop body
(scripts/test_local.py lines 132-179). -/
def sshPollCmds (o : SshObs) : List DockerCmd :=
  .execIsActiveSsh ::
    (match o.isActive with
     | some r =>
       if r.returncode = 0 ∧ pyContains r.stdout "active".data = true then [.execNetstat22]
       else sshStartBranchCmds o
     | none => sshStartBranchCmds o)

/-- Split a path string into its slash-separated components. -/
def splitOnSlash (s : Str) : List Str :=
  s.foldr
    (fun c acc =>
      if c = '/' then [] :: acc
      else
        match acc with
        | [] => [[c]]
        | h :: t => (c :: h) :: t)
    [[]]

/-- Model of pathlib Path.name: the final path component. -/
def pathName (p : Str) : Str := (splitOnSlash p).getLastD []

/-- Model of the pathlib / operator joining a directory and a relative path. -/
def pathJoin (a b : Str) : Str := a ++ "/".data ++ b

/-- The inventory path each health-check function builds and existence-checks
(scripts/utilities/health_check.py, e.g. lines 45-49): the ansible directory
joined with inventories/{environment}.yml. -/
def inventoryFilePath (ansible_dir environment : Str) : Str :=
  pathJoin ansible_dir ("inventories/".data ++ environment ++ ".yml".data)

/-- The full command string built by run_ansible_command
(scripts/utilities/health_check.py line 26): it interpolates
inventory_file.name, the final component only, after -i. -/
def ansibleFullCommand (command inventory_file : Str) : Str :=
  "ansible ".data ++ command ++ " -i ".data ++ pathName inventory_file

/-- The -i argument run_ansible_command passes: the name, not the
inventories-relative path, of the checked file. -/
def ansibleInventoryArg (inventory_file : Str) : Str := pathName inventory_file

/-- Resolution of a relative command-line path against the working directory
the command is run in (run_ansible_command runs with cwd = ansible_dir). -/
def resolveAgainstCwd (cwd arg : Str) : Str := pathJoin cwd arg

/-- The endpoint loop of check_monitoring_endpoints
(scripts/utilities/health_check.py lines 141-147): one Bool per endpoint
probe; a failed probe prints a warning and leaves the success flag untouched
(the loop body never assigns it).  Returns the success flag and the number
of warnings printed. -/
def endpointsCheckLoop : List Bool → Bool → Nat → Bool × Nat
  | [], success, warns => (success, warns)
  | ok :: rest, success, warns =>
    if ok then endpointsCheckLoop rest success warns
    else endpointsCheckLoop rest success (warns + 1)

/-- Model of check_monitoring_endpoints (scripts/utilities/health_check.py
lines 124-148): returns False when the inventory file is missing, otherwise
runs the endpoint loop with the success flag initialized to True. -/
def check_monitoring_endpoints (inventoryExists : Bool) (endpointResults : List Bool) :
    Bool × Nat :=
  if inventoryExists then endpointsCheckLoop endpointResults true 0 else (false, 0)

/-- Number of failed probes in a list of endpoint results. -/
def countFailed (endpointResults : List Bool) : Nat :=
  (endpointResults.filter (fun b => !b)).length

/-- Number of failed checks accumulated by the main function of the
health-check driver (scripts/utilities/health_check.py lines 181-190): one
per check function returning False, with the monitoring-endpoint check
included only when endpoints are not skipped. -/
def healthCheckFailedCount (conn res svc dock : Bool)
    (skipEndpoints inventoryExists : Bool) (endpointResults : List Bool) : Nat :=
  (if conn then 0 else 1) + (if res then 0 else 1) + (if svc then 0 else 1) +
    (if dock then 0 else 1) +
    (if skipEndpoints then 0
     else if (check_monitoring_endpoints inventoryExists endpointResults).1 then 0 else 1)

/-- Exit code of the health-check driver (scripts/utilities/health_check.py
lines 195-208): 0 when no check failed, else 1. -/
def healthCheckExit (conn res svc dock : Bool)
    (skipEndpoints inventoryExists : Bool) (endpointResults : List Bool) : Nat :=
  if healthCheckFailedCount conn res svc dock skipEndpoints inventoryExists endpointResults = 0
  then 0 else 1

/-- Outcomes of the stages of the local test driver pipeline that precede the
endpoint loop (scripts/test_local.py main, lines 246-374), in program order. -/
structure StageResults where
  dockerOk : Bool
  composeUpOk : Bool
  containerWaitOk : Bool
  sshWaitOk : Bool
  sshSetupOk : Bool
  connectivityOk : Bool
  deployOk : Bool
deriving DecidableEq

/-- Warnings printed by the endpoint loop of the local test driver
(scripts/test_local.py lines 385-389): one warning line per failed
test_http_endpoint call; nothing else happens on failure. -/
def endpointLoopWarnings : List Bool → Nat
  | [] => 0
  | ok :: rest => (if ok then 0 else 1) + endpointLoopWarnings rest

/-- Exit-code skeleton of the local test driver main
(scripts/test_local.py lines 246-401): each pipeline stage failure calls
sys.exit(1); after the deployment stage the endpoint loop only prints and
main falls through to the success messages, exiting 0.  Returns the process
exit code paired with the number of endpoint warnings printed. -/
def test_local_main (s : StageResults) (endpointResults : List Bool) : Nat × Nat :=
  if s.dockerOk = false then (1, 0)
  else if s.composeUpOk = false then (1, 0)
  else if s.containerWaitOk = false then (1, 0)
  else if s.sshWaitOk = false then (1, 0)
  else if s.sshSetupOk = false then (1, 0)
  else if s.connectivityOk = false then (1, 0)
  else if s.deployOk = false then (1, 0)
  else (0, endpointLoopWarnings endpointResults)

/-- State of one monitoring template file as seen by validate_config_files:
missing, present and parsed by yaml.safe_load, or present with content that
raises during parsing. -/
inductive TemplateState where
  | missing : TemplateState
  | parsesOk : TemplateState
  | parseFails : TemplateState
deriving DecidableEq

/-- Counters of the ValidationTest object (scripts/validate.py lines 26-29). -/
structure VState where
  tests_passed : Nat
  tests_failed : Nat
deriving DecidableEq

/-- Effect of one loop iteration of validate_config_files
(scripts/validate.py lines 161-176) on the counters: an existing file that
parses increments tests_passed; an existing file whose parse raises takes the
except branch, which prints a template-with-variables note and touches
neither counter; a missing file increments tests_failed. -/
def validateConfigStep (st : VState) : TemplateState → VState
  | .parsesOk => ⟨st.tests_passed + 1, st.tests_failed⟩
  | .parseFails => st
  | .missing => ⟨st.tests_passed, st.tests_failed + 1⟩

/-- Model of the validate_config_files loop (scripts/validate.py
lines 161-176) over the list of template file states. -/
def validate_config_files (st : VState) (files : List TemplateState) : VState :=
  files.foldl validateConfigStep st

/-- Model of print_summary (scripts/validate.py lines 178-189): reports
success exactly when tests_failed is zero. -/
def print_summary_ok (st : VState) : Bool := st.tests_failed == 0

/-- Exit code of the validation driver main (scripts/validate.py
lines 209-211): 0 when print_summary reported success, else 1. -/
def validateExit (st : VState) : Nat := if print_summary_ok st then 0 else 1

/-- Concrete poll observation: no probe returned anything (docker ps and
docker ps -a both timed out or reported nothing). -/
def obsAbsent : ContainerObs := ⟨none, none, none⟩

/-- Concrete poll observation: the container is listed with a status line
that neither starts with Up nor contains Exited. -/
def obsStarting : ContainerObs :=
  ⟨some ⟨0, "Restarting (1) 2 seconds ago".data, []⟩, none, none⟩

/-- Concrete poll observation: the container is listed with an Exited
status line. -/
def obsExitedStatus : ContainerObs :=
  ⟨some ⟨0, "Exited (1) 3 seconds ago".data, []⟩, none, none⟩

/-- Concrete poll observation: the container is Up and the systemd probe
reported exit code 1 (degraded). -/
def obsUpSystemdDegraded : ContainerObs :=
  ⟨some ⟨0, "Up 2 seconds".data, []⟩, none, some ⟨1, "degraded".data, []⟩⟩

/-- Concrete poll observation: the primary running-container query failed
(run_command returned None) while the fallback docker ps -a query succeeded
and listed the container with a nonempty status line. -/
def obsPsFailedButListed : ContainerObs :=
  ⟨none, some ⟨0, "Up 5 minutes".data, []⟩, none⟩

/-- Concrete SSH poll observation: service active and port 22 listening. -/
def sshObsGood : SshObs :=
  ⟨some ⟨0, "active".data, []⟩, some ⟨0, "tcp 0 0 0.0.0.0:22 LISTEN".data, []⟩, none, none⟩

/-- Concrete SSH poll observation: the is-active query reported exit code 3
with stdout inactive, so the loop takes the start-service branch. -/
def sshObsInactive : SshObs :=
  ⟨some ⟨3, "inactive".data, []⟩, none, some ⟨0, [], []⟩, none⟩

/-- Concrete SSH poll observation: every probe invocation failed. -/
def sshObsNoProbe : SshObs := ⟨none, none, none, none⟩

/-- Every sleep a non-terminal iteration of the container wait executes is
2 or 3 seconds (scripts/test_local.py lines 80, 94, 121). -/
theorem containerPollStep_sleep_bounds (container_name : Str) (o : ContainerObs)
    (s : Nat) (h : containerPollStep container_name o = .continueAfter s) :
    2 ≤ s ∧ s ≤ 3 := by
  unfold containerPollStep stoppedCheckStep at h
  repeat' split at h
  all_goals first
    | (injection h with h; omega)
    | exact PollStep.noConfusion h

/-- When every observation yields a non-terminal step, the container wait
loop ends in the deadline-expiry branch, at an elapsed time in the window
from the timeout up to (strictly below) the timeout plus the largest sleep. -/
theorem waitContainerGo_all_continue (container_name : Str) (T : Nat)
    (obss : List ContainerObs) :
    ∀ (elapsed polls fetches : Nat),
      (∀ o ∈ obss, ∃ s, containerPollStep container_name o = .continueAfter s) →
      elapsed < T + 3 →
      T ≤ elapsed + 2 * obss.length →
      ∃ e p, waitContainerGo container_name T obss elapsed polls fetches =
          .timeoutFail e p fetches ∧ T ≤ e ∧ e < T + 3 := by
  induction obss with
  | nil =>
    intro elapsed polls fetches _ hlt hle
    simp only [List.length_nil, Nat.mul_zero, Nat.add_zero] at hle
    refine ⟨elapsed, polls, ?_, hle, hlt⟩
    unfold waitContainerGo
    rw [if_pos hle]
  | cons o rest ih =>
    intro elapsed polls fetches hall hlt hle
    by_cases hT : T ≤ elapsed
    · refine ⟨elapsed, polls, ?_, hT, hlt⟩
      unfold waitContainerGo
      rw [if_pos hT]
    · obtain ⟨s, hs⟩ := hall o (List.mem_cons_self o rest)
      obtain ⟨hs2, hs3⟩ := containerPollStep_sleep_bounds container_name o s hs
      have hstep : waitContainerGo container_name T (o :: rest) elapsed polls fetches =
          waitContainerGo container_name T rest (elapsed + s) (polls + 1) fetches := by
        conv_lhs => unfold waitContainerGo
        rw [if_neg hT]
        dsimp only
        rw [hs]
      rw [hstep]
      refine ih (elapsed + s) (polls + 1) fetches
        (fun o' ho' => hall o' (List.mem_cons_of_mem _ ho')) (by omega) ?_
      simp only [List.length_cons] at hle
      omega

/-- Running the container wait over a prefix of non-terminal observations
followed by an observation the loop body classifies as exited returns the
exited failure right there: elapsed time is the sum of the sleeps of the
prefix, exactly one iteration more than the prefix ran, exactly one more log
fetch, and the observations after the exited one are never consumed. -/
theorem waitContainerGo_exited_prefix (container_name : Str) (T t : Nat) (o : ContainerObs)
    (ho : containerPollStep container_name o = .failure t) (pre : List ContainerObs) :
    ∀ (rest : List ContainerObs) (elapsed polls fetches : Nat),
      (∀ o' ∈ pre, ∃ s, containerPollStep container_name o' = .continueAfter s) →
      elapsed + (pre.map (pollSleep container_name)).sum < T →
      waitContainerGo container_name T (pre ++ o :: rest) elapsed polls fetches =
        .exitedFail (elapsed + (pre.map (pollSleep container_name)).sum)
          (polls + pre.length + 1) (fetches + 1) := by
  induction pre with
  | nil =>
    intro rest elapsed polls fetches _ hlt
    simp only [List.map_nil, List.sum_nil, Nat.add_zero] at hlt ⊢
    simp only [List.nil_append, List.length_nil]
    conv_lhs => unfold waitContainerGo
    rw [if_neg (by omega)]
    dsimp only
    rw [ho]
  | cons a pre ih =>
    intro rest elapsed polls fetches hall hlt
    obtain ⟨s, hs⟩ := hall a (List.mem_cons_self a pre)
    have hsleep : pollSleep container_name a = s := by
      unfold pollSleep
      rw [hs]
    simp only [List.map_cons, List.sum_cons, hsleep] at hlt ⊢
    have hstep : waitContainerGo container_name T ((a :: pre) ++ o :: rest) elapsed polls fetches =
        waitContainerGo container_name T (pre ++ o :: rest) (elapsed + s) (polls + 1) fetches := by
      rw [List.cons_append]
      conv_lhs => unfold waitContainerGo
      rw [if_neg (by omega)]
      dsimp only
      rw [hs]
    rw [hstep, ih rest (elapsed + s) (polls + 1) fetches
      (fun o' ho' => hall o' (List.mem_cons_of_mem _ ho')) (by omega)]
    simp only [List.length_cons]
    congr 1 <;> omega

/-- C1: in every polling run of the container readiness wait in which an
observation is classified as exited (stopped container found by the fallback
query, or a status line containing Exited) after a prefix of non-terminal
observations, the wait returns failure immediately after that iteration: the
elapsed time is exactly the sum of the sleeps of the prefix (no further
sleep), exactly prefix-length + 1 iterations ran (no further probe attempt,
whatever observations follow), and the diagnostic log fetch ran exactly
once. -/
theorem containerWait_exited_fail_fast (container_name : Str) (T t : Nat)
    (pre rest : List ContainerObs) (o : ContainerObs)
    (hpre : ∀ o' ∈ pre, ∃ s, containerPollStep container_name o' = .continueAfter s)
    (ho : containerPollStep container_name o = .failure t)
    (hT : (pre.map (pollSleep container_name)).sum < T) :
    wait_for_container_healthy container_name T (pre ++ o :: rest) =
      .exitedFail ((pre.map (pollSleep container_name)).sum) (pre.length + 1) 1 := by
  have h := waitContainerGo_exited_prefix container_name T t o ho pre rest 0 0 0 hpre
    (by omega)
  simpa [wait_for_container_healthy] using h

/-- Witness for C1: the target is Starting on the first poll and Exited on
the second; the wait fails after 2 seconds (one 2-second sleep), runs exactly
2 iterations, and fetches logs exactly once. -/
theorem containerWait_exited_fail_fast_wit :
    wait_for_container_healthy "test-vps".data 120 [obsStarting, obsExitedStatus] =
      .exitedFail 2 2 1 := by
  have h := containerWait_exited_fail_fast "test-vps".data 120 30 [obsStarting] []
    obsExitedStatus
    (by
      intro o' ho'
      have he : o' = obsStarting := by simpa using ho'
      exact ⟨2, by rw [he]; decide⟩)
    (by decide) (by decide)
  exact h.trans (by decide)

/-- C2: in every polling run of the container wait in which every observation
is classified as non-terminal (never exited, never ready), and the
observation list covers the timeout, the wait returns the deadline-expiry
failure with no log fetch, at an elapsed time at least the timeout and
strictly below the timeout plus the 3-second polling interval. -/
theorem containerWait_timeout_window (container_name : Str) (T : Nat)
    (obss : List ContainerObs)
    (hall : ∀ o ∈ obss, ∃ s, containerPollStep container_name o = .continueAfter s)
    (hlen : T ≤ 2 * obss.length) :
    ∃ e p, wait_for_container_healthy container_name T obss = .timeoutFail e p 0 ∧
      T ≤ e ∧ e < T + 3 := by
  have h := waitContainerGo_all_continue container_name T obss 0 0 0 hall (by omega)
    (by omega)
  simpa [wait_for_container_healthy] using h

/-- Witness for C2: a 5-second timeout with the target absent on every poll;
the wait fails by deadline expiry within the stated window. -/
theorem containerWait_timeout_window_wit :
    ∃ e p, wait_for_container_healthy "test-vps".data 5 [obsAbsent, obsAbsent, obsAbsent] =
        .timeoutFail e p 0 ∧ 5 ≤ e ∧ e < 5 + 3 :=
  containerWait_timeout_window "test-vps".data 5 [obsAbsent, obsAbsent, obsAbsent]
    (by
      intro o ho
      simp only [List.mem_cons, List.not_mem_nil, or_false] at ho
      rcases ho with h | h | h <;> (subst h; exact ⟨3, by decide⟩))
    (by decide)

/-- Counterexample to C3: one run ends by deadline expiry, the other by an
Exited observation, yet both return the same value False to the caller: the
returned outcomes do not differ, so a caller cannot branch on which failure
occurred. -/
theorem containerWait_failures_indistinguishable_cex :
    wait_for_container_healthy "test-vps".data 2 [obsAbsent] = .timeoutFail 3 1 0 ∧
    wait_for_container_healthy "test-vps".data 120 [obsExitedStatus] = .exitedFail 0 1 1 ∧
    (wait_for_container_healthy "test-vps".data 2 [obsAbsent]).returnedBool = some false ∧
    (wait_for_container_healthy "test-vps".data 120 [obsExitedStatus]).returnedBool =
      (wait_for_container_healthy "test-vps".data 2 [obsAbsent]).returnedBool := by
  decide

/-- C3 (amended): the readiness wait does not distinguish the two failure
modes in its returned value: for every pair of runs, one ending by deadline
expiry and one ending by observing Exited, both return False to the caller;
the distinction exists only in the diagnostic output printed inside the wait
(the exited branch is the one that fetches logs). -/
theorem containerWait_failures_same_returned_value
    (name₁ name₂ : Str) (T₁ T₂ : Nat) (obss₁ obss₂ : List ContainerObs)
    (e₁ p₁ f₁ e₂ p₂ f₂ : Nat)
    (h₁ : wait_for_container_healthy name₁ T₁ obss₁ = .timeoutFail e₁ p₁ f₁)
    (h₂ : wait_for_container_healthy name₂ T₂ obss₂ = .exitedFail e₂ p₂ f₂) :
    (wait_for_container_healthy name₁ T₁ obss₁).returnedBool = some false ∧
    (wait_for_container_healthy name₂ T₂ obss₂).returnedBool = some false ∧
    (wait_for_container_healthy name₁ T₁ obss₁).returnedBool =
      (wait_for_container_healthy name₂ T₂ obss₂).returnedBool := by
  rw [h₁, h₂]
  exact ⟨rfl, rfl, rfl⟩

/-- Witness for the amended C3, at the two concrete runs of the
counterexample. -/
theorem containerWait_failures_same_returned_value_wit :
    (wait_for_container_healthy "test-vps".data 2 [obsAbsent]).returnedBool = some false ∧
    (wait_for_container_healthy "test-vps".data 120 [obsExitedStatus]).returnedBool =
      some false ∧
    (wait_for_container_healthy "test-vps".data 2 [obsAbsent]).returnedBool =
      (wait_for_container_healthy "test-vps".data 120 [obsExitedStatus]).returnedBool :=
  containerWait_failures_same_returned_value "test-vps".data "test-vps".data 2 120
    [obsAbsent] [obsExitedStatus] 3 1 0 0 1 1 (by decide) (by decide)

/-- C4: one iteration of the SSH wait returns success exactly when, on that
same iteration, the service query returned exit code 0 with the word active
in its stdout and the port-22 query returned exit code 0; every other
iteration is non-terminal (sleep 3 and poll again), so the wait keeps
polling until its deadline. -/
theorem sshWait_success_iff_active_and_listening (o : SshObs) :
    (sshPollStep o = .success ↔
      (∃ r, o.isActive = some r ∧ r.returncode = 0 ∧
        pyContains r.stdout "active".data = true) ∧
      (∃ pc, o.portCheck = some pc ∧ pc.returncode = 0)) ∧
    (sshPollStep o = .success ∨ sshPollStep o = .continueAfter 3) := by
  rcases o with ⟨ia, pc, st, ss⟩
  cases ia with
  | none => simp [sshPollStep]
  | some r =>
    by_cases hc : r.returncode = 0 ∧ pyContains r.stdout "active".data = true
    · cases pc with
      | none => simp [sshPollStep, hc]
      | some p =>
        by_cases hp : p.returncode = 0
        · simp [sshPollStep, hc, hp]
        · simp [sshPollStep, hc, hp]
    · cases pc with
      | none => simp [sshPollStep, hc]
      | some p => simp [sshPollStep, hc]

/-- C5: on an iteration of the wait for the test-vps container whose status
line is Up, the systemd readiness probe (systemctl is-system-running --wait)
is accepted with exit code 0 or exit code 1 (degraded): exactly then the
wait returns success, and any other exit code, or a probe that timed out and
returned nothing, leaves the iteration non-terminal (sleep 3, keep polling).
The acceptance of codes 0 and 1 is implemented in wait_for_container_healthy
(scripts/test_local.py lines 98-111), the wait that gates SSH use of the
container. -/
theorem systemd_probe_accepts_codes_0_and_1 (o : ContainerObs) (r : CmdResult)
    (hps : o.ps = some r) (hne : pyStrip r.stdout ≠ [])
    (hup : pyStartsWith (pyStrip r.stdout) "Up".data = true) :
    (containerPollStep "test-vps".data o = .success ↔
      ∃ sr, o.systemd = some sr ∧ (sr.returncode = 0 ∨ sr.returncode = 1)) ∧
    (containerPollStep "test-vps".data o = .success ∨
      containerPollStep "test-vps".data o = .continueAfter 3) := by
  rcases o with ⟨ps, psAll, sysd⟩
  simp only at hps
  subst hps
  cases sysd with
  | none => simp [containerPollStep, hne, hup]
  | some sr =>
    by_cases hrc : sr.returncode = 0 ∨ sr.returncode = 1
    · simp [containerPollStep, hne, hup, hrc]
    · simp [containerPollStep, hne, hup, hrc]

/-- Witness for C5: container Up, systemd probe exits with code 1
(degraded); the wait reports success. -/
theorem systemd_probe_accepts_codes_0_and_1_wit :
    containerPollStep "test-vps".data obsUpSystemdDegraded = .success :=
  (systemd_probe_accepts_codes_0_and_1 obsUpSystemdDegraded
      ⟨0, "Up 2 seconds".data, []⟩ rfl (by decide) (by decide)).1.mpr
    ⟨⟨1, "degraded".data, []⟩, rfl, Or.inr rfl⟩

/-- Counterexample to C6: on a poll where the primary probe invocation
failed to execute (run_command returned None for docker ps) while the
fallback docker ps -a query succeeded with a nonempty status line, the
container wait does not treat the poll as Absent and keep polling: it
classifies the container as exists-but-stopped, fetches logs, and returns
failure on that very poll. -/
theorem probe_failure_can_cause_failure_cex :
    obsPsFailedButListed.ps = none ∧
    containerPollStep "test-vps".data obsPsFailedButListed = .failure 20 ∧
    wait_for_container_healthy "test-vps".data 120 [obsPsFailedButListed] =
      .exitedFail 0 1 1 ∧
    (wait_for_container_healthy "test-vps".data 120 [obsPsFailedButListed]).returnedBool =
      some false := by
  decide

/-- C6 (amended): a poll whose probe invocations all fail to execute is
treated as a non-ready/Absent observation and no exception escapes (the loop
bodies are total functions into a sleep-and-continue step): in the container
wait this needs the fallback stopped-container query to also fail or report
nothing, and in the SSH wait the failed service query alone suffices; the
iteration then sleeps 3 seconds and polling continues. -/
theorem probe_failure_treated_as_absent (container_name : Str)
    (o : ContainerObs) (so : SshObs)
    (hps : o.ps = none)
    (hall : o.psAll = none ∨ ∃ r, o.psAll = some r ∧ pyStrip r.stdout = [])
    (hia : so.isActive = none) :
    containerPollStep container_name o = .continueAfter 3 ∧
    sshPollStep so = .continueAfter 3 := by
  constructor
  · rcases o with ⟨ps, psAll, sysd⟩
    simp only at hps hall
    subst hps
    rcases hall with h | ⟨r, h, hr⟩ <;> subst h <;>
      simp [containerPollStep, stoppedCheckStep, *]
  · rcases so with ⟨ia, pc, st, ss⟩
    simp only at hia
    subst hia
    simp [sshPollStep]

/-- Witness for the amended C6: every probe fails on the poll; both loops
sleep 3 and continue. -/
theorem probe_failure_treated_as_absent_wit :
    containerPollStep "test-vps".data obsAbsent = .continueAfter 3 ∧
    sshPollStep sshObsNoProbe = .continueAfter 3 :=
  probe_failure_treated_as_absent "test-vps".data obsAbsent sshObsNoProbe rfl
    (Or.inl rfl) rfl

/-- The endpoint loop of the health-check driver leaves its success flag
untouched and prints one warning per failed probe. -/
theorem endpointsCheckLoop_spec :
    ∀ (eps : List Bool) (s : Bool) (w : Nat),
      endpointsCheckLoop eps s w = (s, w + countFailed eps)
  | [], s, w => by simp [endpointsCheckLoop, countFailed]
  | true :: rest, s, w => by
    simp only [endpointsCheckLoop, if_true, endpointsCheckLoop_spec rest s w]
    simp [countFailed]
  | false :: rest, s, w => by
    simp only [endpointsCheckLoop, Bool.false_eq_true, if_false,
      endpointsCheckLoop_spec rest s (w + 1)]
    simp [countFailed]
    omega

/-- C7: failed HTTP reachability probes never fail a run.  With the
inventory present, check_monitoring_endpoints reports success whatever
subset of endpoint probes fails, emitting exactly one warning per failure;
the local test driver exit code is the same for any two endpoint-result
lists; and the health-check driver exit code is likewise unchanged by the
endpoint results. -/
theorem endpoint_probe_failures_not_fatal (eps eps' : List Bool) (s : StageResults)
    (conn res svc dock sk : Bool) :
    (check_monitoring_endpoints true eps).1 = true ∧
    (check_monitoring_endpoints true eps).2 = countFailed eps ∧
    (test_local_main s eps).1 = (test_local_main s eps').1 ∧
    healthCheckExit conn res svc dock sk true eps =
      healthCheckExit conn res svc dock sk true eps' := by
  have h1 : ∀ l : List Bool, check_monitoring_endpoints true l = (true, countFailed l) := by
    intro l
    simp [check_monitoring_endpoints, endpointsCheckLoop_spec]
  refine ⟨by simp [h1], by simp [h1], ?_, ?_⟩
  · unfold test_local_main
    split_ifs <;> rfl
  · simp [healthCheckExit, healthCheckFailedCount, h1]

/-- Counterexample to C8: the SSH wait polling loop is not read-only: on a
poll where the service is not active it issues systemctl start ssh, a
command that changes the state of the service inside the container. -/
theorem sshWait_issues_mutating_command_cex :
    DockerCmd.execStartSsh ∈ sshPollCmds sshObsInactive ∧
    readOnlyCmd DockerCmd.execStartSsh = false := by
  decide

/-- C8 (amended): every command issued inside the container wait loop is a
read-only status query, and every command issued inside the SSH wait loop is
read-only except systemctl start ssh (with which the not-active branch tries
to start the service), so only the SSH wait can change the state of an
unready target. -/
theorem pollLoop_commands_readonly_except_start (container_name : Str)
    (o : ContainerObs) (so : SshObs) :
    (containerPollCmds container_name o).all readOnlyCmd = true ∧
    (sshPollCmds so).all
      (fun c => readOnlyCmd c || c == DockerCmd.execStartSsh) = true := by
  constructor
  · unfold containerPollCmds stoppedCheckCmds
    rcases o with ⟨ps, psAll, sysd⟩
    cases ps <;> cases psAll <;> cases sysd <;>
      (dsimp only; repeat' split) <;> decide
  · unfold sshPollCmds sshStartBranchCmds
    rcases so with ⟨ia, pc, st, ss⟩
    cases ia <;> cases st <;> (dsimp only; repeat' split) <;> decide

/-- Witness for the amended C8, at a concrete poll of each loop. -/
theorem pollLoop_commands_readonly_except_start_wit :
    (containerPollCmds "test-vps".data obsExitedStatus).all readOnlyCmd = true ∧
    (sshPollCmds sshObsInactive).all
      (fun c => readOnlyCmd c || c == DockerCmd.execStartSsh) = true :=
  pollLoop_commands_readonly_except_start "test-vps".data obsExitedStatus sshObsInactive

/-- C9 (divergence witness): for environment production with the ansible
directory /repo/ansible, the health-check functions existence-check
/repo/ansible/inventories/production.yml, but run_ansible_command
interpolates only the file name after -i, so the executed command is
ansible all -m ping -i production.yml, whose -i argument resolves against
the working directory to /repo/ansible/production.yml: a different path
from the one whose existence was just verified. -/
theorem healthCheck_inventory_arg_mismatch :
    inventoryFilePath "/repo/ansible".data "production".data =
      "/repo/ansible/inventories/production.yml".data ∧
    ansibleFullCommand "all -m ping".data
        (inventoryFilePath "/repo/ansible".data "production".data) =
      "ansible all -m ping -i production.yml".data ∧
    resolveAgainstCwd "/repo/ansible".data
        (ansibleInventoryArg (inventoryFilePath "/repo/ansible".data "production".data)) =
      "/repo/ansible/production.yml".data ∧
    resolveAgainstCwd "/repo/ansible".data
        (ansibleInventoryArg (inventoryFilePath "/repo/ansible".data "production".data)) ≠
      inventoryFilePath "/repo/ansible".data "production".data := by
  decide

/-- The validate_config_files loop never increments tests_failed while no
template file is missing, whatever mix of parsing and non-parsing existing
files it sees. -/
theorem validate_config_files_failed_invariant (files : List TemplateState) :
    ∀ st : VState, (∀ f ∈ files, f ≠ TemplateState.missing) →
      (validate_config_files st files).tests_failed = st.tests_failed := by
  induction files with
  | nil => intro st _; rfl
  | cons f rest ih =>
    intro st hall
    have hf : f ≠ TemplateState.missing := hall f (List.mem_cons_self f rest)
    have hstep : (validateConfigStep st f).tests_failed = st.tests_failed := by
      cases f with
      | missing => exact absurd rfl hf
      | parsesOk => rfl
      | parseFails => rfl
    calc (validate_config_files st (f :: rest)).tests_failed
        = (validate_config_files (validateConfigStep st f) rest).tests_failed := rfl
      _ = (validateConfigStep st f).tests_failed :=
          ih _ (fun f' hf' => hall f' (List.mem_cons_of_mem _ hf'))
      _ = st.tests_failed := hstep

/-- C10: an existing monitoring template whose content fails YAML parsing
increments neither the passed counter nor the failed counter; consequently,
in a run where every other test passed (failed counter 0 before the config
stage and no template missing), tests_failed stays 0 and the validation
driver exits 0 even with malformed existing templates. -/
theorem malformed_template_counts_nothing (files : List TemplateState) (p : Nat)
    (hall : ∀ f ∈ files, f ≠ TemplateState.missing) :
    (∀ st : VState, validateConfigStep st TemplateState.parseFails = st) ∧
    (validate_config_files ⟨p, 0⟩ files).tests_failed = 0 ∧
    validateExit (validate_config_files ⟨p, 0⟩ files) = 0 := by
  have h := validate_config_files_failed_invariant files ⟨p, 0⟩ hall
  refine ⟨fun st => rfl, h, ?_⟩
  simp [validateExit, print_summary_ok, h]

/-- Witness for C10: two malformed existing templates and one well-formed
one; tests_failed stays 0 and the driver exits 0. -/
theorem malformed_template_counts_nothing_wit :
    (validate_config_files ⟨5, 0⟩
        [TemplateState.parseFails, TemplateState.parsesOk,
          TemplateState.parseFails]).tests_failed = 0 ∧
    validateExit (validate_config_files ⟨5, 0⟩
        [TemplateState.parseFails, TemplateState.parsesOk,
          TemplateState.parseFails]) = 0 :=
  (malformed_template_counts_nothing
    [TemplateState.parseFails, TemplateState.parsesOk, TemplateState.parseFails] 5
    (by decide)).2
